import Mathlib

/-!
Verification of the IoTABridge plant-monitoring server (sample/server.py):
a shallow embedding of its configuration, the JSMPEG viewer handshake, the
broadcast relay loop, the frame-sink shutdown, the HTTP page server, the
shutdown cleanup sequence and the intent-flag consumption logic, with
theorems settling the specification claims about them.
-/

namespace IoTABridge

/-- CONFIGURATION constant WIDTH (server.py line 39). -/
def WIDTH : Nat := 640

/-- CONFIGURATION constant HEIGHT (server.py line 40). -/
def HEIGHT : Nat := 480

/-- CONFIGURATION constant HTTP_PORT (server.py line 42). -/
def HTTP_PORT : Nat := 8082

/-- CONFIGURATION constant WS_PORT (server.py line 43). -/
def WS_PORT : Nat := 8084

/-- CONFIGURATION constant COLOR (server.py line 44). -/
def COLOR : String := "#444"

/-- CONFIGURATION constant BGCOLOR (server.py line 45). -/
def BGCOLOR : String := "#333"

/-- CONFIGURATION constant SCORE_THRESHOLD_UNDER (server.py line 50); the
rolling score mean the code compares against it is modelled as a rational. -/
def SCORE_THRESHOLD_UNDER : ℚ := 6

/-- CONFIGURATION constant SCORE_THRESHOLD_UPPER (server.py line 51). -/
def SCORE_THRESHOLD_UPPER : ℚ := 10

/-- JSMPEG_MAGIC (server.py line 46): the four ASCII bytes of the
byte-string jsmp. -/
def JSMPEG_MAGIC : List Nat := [106, 115, 109, 112]

/-- Big-endian 16-bit byte encoding, as the struct format character H
produces for an in-range argument. -/
def beU16 (n : Nat) : List Nat := [n / 256 % 256, n % 256]

/-- Struct with format string >4sHH (JSMPEG_HEADER, server.py line 47):
pack lays out a 4-byte field (truncated or null-padded to 4 bytes) followed
by two big-endian unsigned 16-bit fields. -/
def JSMPEG_HEADER.pack (magic : List Nat) (w h : Nat) : List Nat :=
  (magic ++ List.replicate 4 0).take 4 ++ beU16 w ++ beU16 h

/-- StreamingWebSocket.opened (server.py lines 102-104): when a viewer
connection opens, the packed JSMPEG header is sent to it as a binary
message, appended to whatever has been sent so far. -/
def StreamingWebSocket.opened (sent : List (List Nat)) : List (List Nat) :=
  sent ++ [JSMPEG_HEADER.pack JSMPEG_MAGIC WIDTH HEIGHT]

/-- Messages a freshly accepted viewer connection has been sent after
`opened` ran on its empty send history and the broadcast relay then
delivered `chunks` to it. -/
def connectionMessages (chunks : List (List Nat)) : List (List Nat) :=
  StreamingWebSocket.opened [] ++ chunks

/-- C2: on open, a new viewer is sent exactly one 8-byte binary handshake
record — the 4-byte ASCII magic jsmp followed by the big-endian 16-bit
configured WIDTH and HEIGHT — before any chunk data. -/
theorem viewer_handshake_first (chunks : List (List Nat)) :
    connectionMessages chunks =
      JSMPEG_HEADER.pack JSMPEG_MAGIC WIDTH HEIGHT :: chunks ∧
    JSMPEG_HEADER.pack JSMPEG_MAGIC WIDTH HEIGHT =
      JSMPEG_MAGIC ++ beU16 WIDTH ++ beU16 HEIGHT ∧
    (JSMPEG_HEADER.pack JSMPEG_MAGIC WIDTH HEIGHT).length = 8 ∧
    JSMPEG_HEADER.pack JSMPEG_MAGIC WIDTH HEIGHT =
      [106, 115, 109, 112, 2, 128, 1, 224] := by
  refine ⟨?_, by decide, by decide, by decide⟩
  simp [connectionMessages, StreamingWebSocket.opened]

/-- Notifications single() can post to the Slack channel: the look
comment, the water-needed comment, the water-not-needed comment
(server.py lines 54-56 and 441-455). -/
inductive Notification
  | lookMsg
  | waterMsg
  | notWaterMsg
deriving DecidableEq, Repr

/-- Result of one flag-consuming cycle: the final intent flags, the
notifications sent, and how many times each flag was assigned False. -/
structure SingleResult where
  water : Bool
  look : Bool
  sent : List Notification
  waterClears : Nat
  lookClears : Nat
deriving DecidableEq, Repr

/-- Intent-flag consumption in single() (server.py lines 441-455): if the
look flag is set, send the look notification and clear look; otherwise if
the water flag is set, send the water or the not-water notification
depending on whether the rolling score mean lies strictly between the two
thresholds, and clear water once after either branch. The clear counters
record how many times each flag is assigned False in that cycle. -/
def single (water look : Bool) (mean : ℚ) : SingleResult :=
  if look then
    { water := water, look := false, sent := [Notification.lookMsg],
      waterClears := 0, lookClears := 1 }
  else if water then
    if SCORE_THRESHOLD_UNDER < mean ∧ mean < SCORE_THRESHOLD_UPPER then
      { water := false, look := look, sent := [Notification.waterMsg],
        waterClears := 1, lookClears := 0 }
    else
      { water := false, look := look, sent := [Notification.notWaterMsg],
        waterClears := 1, lookClears := 0 }
  else
    { water := water, look := look, sent := [],
      waterClears := 0, lookClears := 0 }

/-- C5: after setWater(True), one single-check cycle clears the water flag
exactly once whichever branch is taken — the notify-water branch when the
score mean is strictly between the thresholds, the notify-not-water branch
otherwise; symmetrically a set look flag is cleared exactly once by the
look branch. -/
theorem water_intent_cleared_once (mean : ℚ) :
    (single true false mean).water = false ∧
    (single true false mean).waterClears = 1 ∧
    ((single true false mean).sent = [Notification.waterMsg] ∨
      (single true false mean).sent = [Notification.notWaterMsg]) ∧
    (SCORE_THRESHOLD_UNDER < mean ∧ mean < SCORE_THRESHOLD_UPPER →
      (single true false mean).sent = [Notification.waterMsg]) ∧
    (¬(SCORE_THRESHOLD_UNDER < mean ∧ mean < SCORE_THRESHOLD_UPPER) →
      (single true false mean).sent = [Notification.notWaterMsg]) ∧
    (single false true mean).look = false ∧
    (single false true mean).lookClears = 1 := by
  by_cases h : SCORE_THRESHOLD_UNDER < mean ∧ mean < SCORE_THRESHOLD_UPPER <;>
    simp [single, h]

/-- Witness for C5 at the concrete in-range score mean 7. -/
theorem water_intent_cleared_once_witness :
    (single true false 7).water = false ∧
    (single true false 7).waterClears = 1 ∧
    (single true false 7).sent = [Notification.waterMsg] := by
  obtain ⟨h1, h2, _, h4, _⟩ := water_intent_cleared_once 7
  exact ⟨h1, h2, h4 (by norm_num [SCORE_THRESHOLD_UNDER, SCORE_THRESHOLD_UPPER])⟩

/-- Converter subprocess as the frame sink observes it after its input
stream is closed: the time at which it exits, or none if it never does. -/
structure ConverterProc where
  exitTime : Option Nat
deriving DecidableEq, Repr

/-- Outcome of waiting on the converter subprocess. -/
inductive WaitOutcome
  | returned (t : Nat)
  | timeoutExpired
  | blocksForever
deriving DecidableEq, Repr

/-- Popen.wait with an optional timeout: with a timeout it raises
TimeoutExpired when the process has not exited within the bound; with no
timeout it blocks until the process exits, forever if it never does. -/
def popenWait (p : ConverterProc) : Option Nat → WaitOutcome
  | some limit =>
    match p.exitTime with
    | some t => if t ≤ limit then WaitOutcome.returned t else WaitOutcome.timeoutExpired
    | none => WaitOutcome.timeoutExpired
  | none =>
    match p.exitTime with
    | some t => WaitOutcome.returned t
    | none => WaitOutcome.blocksForever

/-- Result of BroadcastOutput.flush: whether the converter input stream
was closed, and how the wait on the subprocess ends. -/
structure FlushResult where
  stdinClosed : Bool
  wait : WaitOutcome
deriving DecidableEq, Repr

/-- BroadcastOutput.flush (server.py lines 127-130): close converter.stdin,
then converter.wait() — called with no timeout argument. -/
def BroadcastOutput.flush (p : ConverterProc) : FlushResult :=
  { stdinClosed := true, wait := popenWait p none }

/-- C3 counterexample: the claim that flush surfaces a fatal error when
the subprocess does not exit within a bounded grace period is false — for
a subprocess that never exits, flush blocks forever instead of erroring. -/
theorem flush_bounded_wait_false :
    ¬ ∀ p : ConverterProc, (BroadcastOutput.flush p).wait ≠ WaitOutcome.blocksForever :=
  fun h => h { exitTime := none } (by decide)

/-- C3 amended: flush first closes the subprocess input stream and then
blocks until the subprocess terminates with an unbounded wait — when the
subprocess exits at time t the wait returns then, but when it never exits
flush blocks indefinitely; no fatal error is surfaced after any grace
period. -/
theorem flush_wait_unbounded (p : ConverterProc) :
    (BroadcastOutput.flush p).stdinClosed = true ∧
    (BroadcastOutput.flush p).wait = popenWait p none ∧
    (∀ t, p.exitTime = some t → (BroadcastOutput.flush p).wait = WaitOutcome.returned t) ∧
    (p.exitTime = none → (BroadcastOutput.flush p).wait = WaitOutcome.blocksForever) := by
  refine ⟨rfl, rfl, ?_, ?_⟩
  · intro t ht
    simp [BroadcastOutput.flush, popenWait, ht]
  · intro hn
    simp [BroadcastOutput.flush, popenWait, hn]

/-- Witness for C3 amended at a subprocess exiting at time 5 and one that
never exits. -/
theorem flush_wait_unbounded_witness :
    (BroadcastOutput.flush { exitTime := some 5 }).wait = WaitOutcome.returned 5 ∧
    (BroadcastOutput.flush { exitTime := none }).wait = WaitOutcome.blocksForever ∧
    (BroadcastOutput.flush { exitTime := none }).stdinClosed = true := by
  exact ⟨(flush_wait_unbounded { exitTime := some 5 }).2.2.1 5 rfl,
    (flush_wait_unbounded { exitTime := none }).2.2.2 rfl,
    (flush_wait_unbounded { exitTime := none }).1⟩

/-- Cleanup statements of the finally block of main (server.py lines
283-294): stop recording, join the broadcast thread, shut down the HTTP
server, shut down the websockets server, join the HTTP thread, join the
websockets thread. -/
inductive CleanupStep
  | stopRecording
  | joinBroadcast
  | shutdownHttp
  | shutdownWs
  | joinHttp
  | joinWs
deriving DecidableEq, Repr

/-- Worker threads started in main (server.py lines 210-214). -/
inductive WorkerThread
  | websocketThread
  | httpThread
  | broadcastThread
deriving DecidableEq, Repr

/-- Start order of the three worker threads in main (server.py lines
210-214): websockets thread, then HTTP thread, then broadcast thread. -/
def threadStartOrder : List WorkerThread :=
  [WorkerThread.websocketThread, WorkerThread.httpThread, WorkerThread.broadcastThread]

/-- Source order of the cleanup statements in the finally block of main
(server.py lines 283-294). -/
def cleanupOrder : List CleanupStep :=
  [CleanupStep.stopRecording, CleanupStep.joinBroadcast, CleanupStep.shutdownHttp,
   CleanupStep.shutdownWs, CleanupStep.joinHttp, CleanupStep.joinWs]

/-- Which worker thread a cleanup step joins, if any. -/
def joinOf : CleanupStep → Option WorkerThread
  | CleanupStep.joinBroadcast => some WorkerThread.broadcastThread
  | CleanupStep.joinHttp => some WorkerThread.httpThread
  | CleanupStep.joinWs => some WorkerThread.websocketThread
  | _ => none

/-- Sequential execution of cleanup statements with no per-step exception
handling, exactly as in the finally block: the first step that raises an
exception aborts the remaining steps and the exception propagates out of
the block. Returns the steps that completed and the propagated exception,
if any. -/
def runSteps (fails : CleanupStep → Bool) : List CleanupStep → List CleanupStep × Option CleanupStep
  | [] => ([], none)
  | s :: rest =>
    if fails s then ([], some s)
    else (s :: (runSteps fails rest).1, (runSteps fails rest).2)

/-- Shared global flags of server.py (lines 177-179). -/
structure MainState where
  whileMove : Bool
  water : Bool
  look : Bool
deriving DecidableEq, Repr

/-- setWhileMove (server.py lines 489-491). -/
def setWhileMove (status : Bool) (st : MainState) : MainState :=
  { st with whileMove := status }

/-- getWhileMove (server.py lines 504-506). -/
def getWhileMove (st : MainState) : Bool :=
  st.whileMove

/-- Finally block of main (server.py lines 281-294): assign whileMove back
to True, then run the six cleanup statements in source order. -/
def mainFinally (fails : CleanupStep → Bool) (st : MainState) :
    MainState × List CleanupStep × Option CleanupStep :=
  ({ st with whileMove := true }, runSteps fails cleanupOrder)

/-- Finally block of autoLook (server.py lines 388-401), textually the
same statement sequence as the one in main. -/
def autoLookFinally (fails : CleanupStep → Bool) (st : MainState) :
    MainState × List CleanupStep × Option CleanupStep :=
  ({ st with whileMove := true }, runSteps fails cleanupOrder)

/-- Reasons the continuous capture loop ends (server.py lines 223 and
279-280): the whileMove flag was cleared, or a KeyboardInterrupt arrived
and the except clause swallowed it. -/
inductive LoopExit
  | flagCleared
  | interrupted
deriving DecidableEq, Repr

/-- End of a main run (server.py lines 223 and 279-294): both exit reasons
reach the same finally block. -/
def mainRunEnd (reason : LoopExit) (fails : CleanupStep → Bool) (st : MainState) :
    MainState × List CleanupStep × Option CleanupStep :=
  match reason with
  | LoopExit.flagCleared => mainFinally fails st
  | LoopExit.interrupted => mainFinally fails st

/-- End of an autoLook run (server.py lines 334 and 386-401). -/
def autoLookRunEnd (reason : LoopExit) (fails : CleanupStep → Bool) (st : MainState) :
    MainState × List CleanupStep × Option CleanupStep :=
  match reason with
  | LoopExit.flagCleared => autoLookFinally fails st
  | LoopExit.interrupted => autoLookFinally fails st

/-- Characterization of runSteps: the completed steps are the longest
failure-free front of the list, and the propagated exception is the first
failing step, if any. -/
theorem runSteps_eq (fails : CleanupStep → Bool) (l : List CleanupStep) :
    runSteps fails l =
      (l.takeWhile (fun s => !fails s), (l.dropWhile (fun s => !fails s)).head?) := by
  induction l with
  | nil => simp [runSteps]
  | cons s rest ih =>
    cases h : fails s with
    | true => simp [runSteps, h]
    | false => simp [runSteps, h, ih]

/-- C4 counterexample: when the first cleanup step (camera.stop_recording)
raises, none of the remaining five cleanup steps execute and the exception
propagates, refuting the claim that every cleanup step still executes with
each failure logged and not propagated. -/
theorem cleanup_best_effort_false :
    ¬ ((runSteps (fun s => s == CleanupStep.stopRecording) cleanupOrder).1 = cleanupOrder ∧
       (runSteps (fun s => s == CleanupStep.stopRecording) cleanupOrder).2 = none) := by
  decide

/-- C4 amended: the cleanup statements run in the fixed source order —
stop capture, join broadcast thread, shut down HTTP server, shut down
websockets server, join HTTP thread, join websockets thread — so threads
are joined in the reverse of their start order, and when no step raises
every step executes and nothing propagates; but the steps that execute are
exactly the longest failure-free front of that order: a raising step
aborts all later cleanup steps and its exception propagates, there being
no per-step catching or logging. -/
theorem cleanup_sequence (fails : CleanupStep → Bool) (st : MainState) :
    (runSteps fails cleanupOrder).1 = cleanupOrder.takeWhile (fun s => !fails s) ∧
    (runSteps fails cleanupOrder).2 = (cleanupOrder.dropWhile (fun s => !fails s)).head? ∧
    ((∀ s, fails s = false) → runSteps fails cleanupOrder = (cleanupOrder, none)) ∧
    cleanupOrder.filterMap joinOf = threadStartOrder.reverse ∧
    (mainFinally fails st).1.whileMove = true := by
  have h := runSteps_eq fails cleanupOrder
  refine ⟨by rw [h], by rw [h], ?_, by decide, rfl⟩
  intro hall
  rw [h]
  simp [hall, cleanupOrder]

/-- Witness for C4 amended with no failing step. -/
theorem cleanup_sequence_witness :
    runSteps (fun _ => false) cleanupOrder = (cleanupOrder, none) ∧
    (mainFinally (fun _ => false) (MainState.mk false false false)).1.whileMove = true := by
  have h := cleanup_sequence (fun _ => false) (MainState.mk false false false)
  exact ⟨h.2.2.1 (fun _ => rfl), h.2.2.2.2⟩

/-- C10: after a main or autoLook run ends — whether the loop exited
because setWhileMove(False) cleared the continue flag or because of a
KeyboardInterrupt — the finally block unconditionally assigns whileMove
back to True, so getWhileMove returns True after every completed run and
the stop request that ended it is erased; this holds even when cleanup
steps fail. -/
theorem whileMove_reset_after_run (reason : LoopExit) (fails : CleanupStep → Bool)
    (st : MainState) :
    getWhileMove (mainRunEnd reason fails (setWhileMove false st)).1 = true ∧
    getWhileMove (autoLookRunEnd reason fails (setWhileMove false st)).1 = true ∧
    getWhileMove (mainRunEnd reason fails st).1 = true ∧
    getWhileMove (autoLookRunEnd reason fails st).1 = true := by
  cases reason <;>
    simp [mainRunEnd, autoLookRunEnd, mainFinally, autoLookFinally, getWhileMove, setWhileMove]

/-- Token of the index.html template: literal text or a placeholder with
its name, as string.Template tokenizes dollar-placeholders. -/
inductive TplItem
  | lit (s : String)
  | var (name : String)
deriving DecidableEq, Repr

/-- Substitution dictionary passed to Template.safe_substitute in do_GET
(server.py lines 76-78); the numeric configuration values go through the
Python str conversion. -/
def indexMapping (n : String) : Option String :=
  if n = "WS_PORT" then some (toString WS_PORT)
  else if n = "WIDTH" then some (toString WIDTH)
  else if n = "HEIGHT" then some (toString HEIGHT)
  else if n = "COLOR" then some COLOR
  else if n = "BGCOLOR" then some BGCOLOR
  else none

/-- Template.safe_substitute over a tokenized template: recognized
placeholders are replaced by their mapped value; unrecognized placeholders
stay in the output as literal placeholder text. -/
def safeSubstitute (m : String → Option String) : List TplItem → String
  | [] => ""
  | TplItem.lit s :: rest => s ++ safeSubstitute m rest
  | TplItem.var n :: rest =>
    (match m n with
      | some v => v
      | none => "$" ++ n) ++ safeSubstitute m rest

/-- Placeholders of a template that safe_substitute leaves unsubstituted
in its output. -/
def unsubstituted (m : String → Option String) : List TplItem → List String
  | [] => []
  | TplItem.lit _ :: rest => unsubstituted m rest
  | TplItem.var n :: rest =>
    match m n with
    | some _ => unsubstituted m rest
    | none => n :: unsubstituted m rest

/-- Rendering in which every placeholder is replaced by f of its name. -/
def renderAll (f : String → String) : List TplItem → String
  | [] => ""
  | TplItem.lit s :: rest => s ++ renderAll f rest
  | TplItem.var n :: rest => f n ++ renderAll f rest

/-- True for literal text and for placeholders the index substitution
dictionary recognizes. -/
def recognizedItem : TplItem → Bool
  | TplItem.lit _ => true
  | TplItem.var n => (indexMapping n).isSome

/-- HTTP response the page server produces: status code, headers in send
order, body. -/
structure HttpResponse where
  status : Nat
  headers : List (String × String)
  body : String
deriving DecidableEq, Repr

/-- Headers BaseHTTPRequestHandler.send_response adds automatically before
any explicit send_header call: a Server header and a Date header carrying
the formatted current time. -/
def autoHeaders (now : String) : List (String × String) :=
  [("Server", "BaseHTTP"), ("Date", now)]

/-- Body of the standard-library send_error page for a code and message;
its exact text is immaterial to the claims, which only relate the declared
Content-Length to this same body. -/
def sendErrorBody (code : Nat) (message : String) : String :=
  "<html><head></head><body>Error code " ++ toString code ++ ": " ++ message ++
    "</body></html>"

/-- Shared 200 path of do_GET (server.py lines 82-89): the content is
UTF-8 encoded and sent with Content-Type, a Content-Length computed from
the encoded bytes, and a Last-Modified header for the current time. -/
def httpOk (now contentType content : String) : HttpResponse :=
  { status := 200,
    headers := autoHeaders now ++
      [("Content-Type", contentType),
       ("Content-Length", toString content.utf8ByteSize),
       ("Last-Modified", now)],
    body := content }

/-- StreamingHttpHandler.do_GET (server.py lines 64-89) as a function of
the loaded index template, the jsmpg.js content, the formatted current
time and the request path: the root path gets a 301 redirect whose only
explicit header is Location; /jsmpg.js gets the raw script content as
application/javascript; /index.html gets the safe-substituted template as
text/html; every other path gets the standard-library 404 error response,
whose Content-Length is computed from the error page it sends. -/
def do_GET (indexTemplate : List TplItem) (jsmpgContent : String) (now : String)
    (path : String) : HttpResponse :=
  if path = "/" then
    { status := 301,
      headers := autoHeaders now ++ [("Location", "/index.html")],
      body := "" }
  else if path = "/jsmpg.js" then
    httpOk now "application/javascript" jsmpgContent
  else if path = "/index.html" then
    httpOk now "text/html; charset=utf-8" (safeSubstitute indexMapping indexTemplate)
  else
    { status := 404,
      headers := autoHeaders now ++
        [("Content-Type", "text/html;charset=utf-8"),
         ("Content-Length", toString (sendErrorBody 404 "File not found").utf8ByteSize),
         ("Connection", "close")],
      body := sendErrorBody 404 "File not found" }

/-- Safe substitution on a template whose placeholders are all recognized
replaces every placeholder by its mapped value and leaves none behind. -/
theorem safeSubstitute_recognized (tpl : List TplItem)
    (h : ∀ i ∈ tpl, recognizedItem i = true) :
    safeSubstitute indexMapping tpl =
      renderAll (fun n => (indexMapping n).getD "") tpl ∧
    unsubstituted indexMapping tpl = [] := by
  induction tpl with
  | nil => exact ⟨rfl, rfl⟩
  | cons i rest ih =>
    have hrest := ih (fun j hj => h j (List.mem_cons_of_mem i hj))
    have hi := h i (List.mem_cons_self i rest)
    cases i with
    | lit s => simp [safeSubstitute, unsubstituted, renderAll, hrest.1, hrest.2]
    | var n =>
      cases hm : indexMapping n with
      | none => rw [recognizedItem] at hi; simp [hm] at hi
      | some v =>
        simp [safeSubstitute, unsubstituted, renderAll, hm, hrest.1, hrest.2]

/-- C7: GET /index.html renders the template with every recognized
configuration placeholder — WS_PORT, WIDTH, HEIGHT, COLOR, BGCOLOR —
substituted by its configured value (8084, 640, 480, the two colors),
served with content type text/html; charset=utf-8, and no placeholder
token remains in the rendered page. -/
theorem index_page_rendering (tpl : List TplItem) (js now : String)
    (h : ∀ i ∈ tpl, recognizedItem i = true) :
    (do_GET tpl js now "/index.html").status = 200 ∧
    ("Content-Type", "text/html; charset=utf-8") ∈ (do_GET tpl js now "/index.html").headers ∧
    (do_GET tpl js now "/index.html").body =
      renderAll (fun n => (indexMapping n).getD "") tpl ∧
    unsubstituted indexMapping tpl = [] ∧
    indexMapping "WS_PORT" = some "8084" ∧
    indexMapping "WIDTH" = some "640" ∧
    indexMapping "HEIGHT" = some "480" ∧
    indexMapping "COLOR" = some "#444" ∧
    indexMapping "BGCOLOR" = some "#333" := by
  have hs := safeSubstitute_recognized tpl h
  refine ⟨by simp [do_GET, httpOk], by simp [do_GET, httpOk, autoHeaders],
    ?_, hs.2, by decide, by decide, by decide, by decide, by decide⟩
  simpa [do_GET, httpOk] using hs.1

/-- Witness for C7 on a small concrete template using only recognized
placeholders. -/
theorem index_page_rendering_witness :
    (do_GET [TplItem.lit "w=", TplItem.var "WIDTH"] "" "now" "/index.html").status = 200 ∧
    unsubstituted indexMapping [TplItem.lit "w=", TplItem.var "WIDTH"] = [] ∧
    (do_GET [TplItem.lit "w=", TplItem.var "WIDTH"] "" "now" "/index.html").body = "w=640" := by
  have h := index_page_rendering [TplItem.lit "w=", TplItem.var "WIDTH"] "" "now" (by decide)
  exact ⟨h.1, h.2.2.2.1, h.2.2.1.trans (by decide)⟩

/-- C8: page-server routing — GET / is a 301 redirect to /index.html, GET
/jsmpg.js returns the raw script content as application/javascript, and
every path other than the three routes yields a 404 whose declared
Content-Length is computed from the body that is actually sent. -/
theorem page_server_routing (tpl : List TplItem) (js now path : String)
    (h1 : path ≠ "/") (h2 : path ≠ "/jsmpg.js") (h3 : path ≠ "/index.html") :
    (do_GET tpl js now "/").status = 301 ∧
    ("Location", "/index.html") ∈ (do_GET tpl js now "/").headers ∧
    (do_GET tpl js now "/jsmpg.js").status = 200 ∧
    ("Content-Type", "application/javascript") ∈ (do_GET tpl js now "/jsmpg.js").headers ∧
    (do_GET tpl js now "/jsmpg.js").body = js ∧
    (do_GET tpl js now path).status = 404 ∧
    ("Content-Length", toString (do_GET tpl js now path).body.utf8ByteSize) ∈
      (do_GET tpl js now path).headers := by
  simp [do_GET, httpOk, autoHeaders, h1, h2, h3]

/-- Witness for C8 at the concrete unknown path. -/
theorem page_server_routing_witness :
    (do_GET [] "" "now" "/unknown-path").status = 404 ∧
    (do_GET [] "" "now" "/").status = 301 := by
  have h := page_server_routing [] "" "now" "/unknown-path"
    (by decide) (by decide) (by decide)
  exact ⟨h.2.2.2.2.2.1, h.1⟩

/-- C9 counterexample: the 301 redirect for GET / carries only the
automatic Server and Date headers plus Location — it has no Content-Length
header and no Last-Modified header, refuting the claim that every page
server response includes both. -/
theorem all_responses_headers_false :
    (do_GET [] "" "now" "/").headers.map Prod.fst = ["Server", "Date", "Location"] ∧
    "Content-Length" ∉ (do_GET [] "" "now" "/").headers.map Prod.fst ∧
    "Last-Modified" ∉ (do_GET [] "" "now" "/").headers.map Prod.fst := by
  refine ⟨by simp [do_GET, autoHeaders], ?_, ?_⟩ <;> simp [do_GET, autoHeaders]

/-- C9 amended: only the 200 responses (for /index.html and /jsmpg.js)
carry both a computed Content-Length and a Last-Modified header; the 301
redirect for GET / carries neither — only Server, Date and Location — and
the 404 for unknown paths carries a computed Content-Length but no
Last-Modified header. -/
theorem headers_by_route (tpl : List TplItem) (js now path : String)
    (h1 : path ≠ "/") (h2 : path ≠ "/jsmpg.js") (h3 : path ≠ "/index.html") :
    ("Content-Length",
        toString (do_GET tpl js now "/index.html").body.utf8ByteSize) ∈
      (do_GET tpl js now "/index.html").headers ∧
    ("Last-Modified", now) ∈ (do_GET tpl js now "/index.html").headers ∧
    ("Content-Length", toString js.utf8ByteSize) ∈ (do_GET tpl js now "/jsmpg.js").headers ∧
    ("Last-Modified", now) ∈ (do_GET tpl js now "/jsmpg.js").headers ∧
    (do_GET tpl js now "/").headers.map Prod.fst = ["Server", "Date", "Location"] ∧
    ("Content-Length", toString (do_GET tpl js now path).body.utf8ByteSize) ∈
      (do_GET tpl js now path).headers ∧
    "Last-Modified" ∉ (do_GET tpl js now path).headers.map Prod.fst := by
  simp [do_GET, httpOk, autoHeaders, h1, h2, h3]

/-- Witness for C9 amended at a concrete unknown path. -/
theorem headers_by_route_witness :
    (do_GET [] "" "now" "/").headers.map Prod.fst = ["Server", "Date", "Location"] ∧
    "Last-Modified" ∉ (do_GET [] "" "now" "/nope").headers.map Prod.fst := by
  have h := headers_by_route [] "" "now" "/nope" (by decide) (by decide) (by decide)
  exact ⟨h.2.2.2.2.1, h.2.2.2.2.2.2⟩

/-- One iteration of BroadcastThread.run as it observes the converter
(server.py lines 141-146): the bytes converter.stdout.read1(32768)
returned, and whether converter.poll() would report the subprocess as
exited at that moment. -/
structure RelayEvent where
  buf : List Nat
  exited : Bool
deriving DecidableEq, Repr

/-- Viewer connection as the websocket manager holds it: whether the
socket is terminated, whether a send on it raises (its peer closed), and
the chunks delivered to it so far. -/
structure Viewer where
  terminated : Bool
  broken : Bool
  received : List (List Nat)
deriving DecidableEq, Repr

/-- Send on one socket inside the manager broadcast loop, modelling the
ws4py WebSocketManager.broadcast body: a terminated socket is skipped, a
socket whose send raises is silently passed over by the bare except, and
a healthy socket has the chunk appended to its delivery. -/
def wsSend (chunk : List Nat) (v : Viewer) : Viewer :=
  if v.terminated then v
  else if v.broken then v
  else { v with received := v.received ++ [chunk] }

/-- Broadcast of one chunk to every registered socket, modelling ws4py
WebSocketManager.broadcast as called at server.py line 144: the manager
iterates a copy of its socket set and applies the guarded send to each. -/
def managerBroadcast (chunk : List Nat) (vs : List Viewer) : List Viewer :=
  vs.map (wsSend chunk)

/-- Result of the relay loop over a finite trace: the viewers with their
deliveries, whether the loop ended via its break (an empty read while the
subprocess had exited), and whether the read handle was closed. -/
structure RelayResult where
  viewers : List Viewer
  sawEof : Bool
  stdoutClosed : Bool
deriving DecidableEq, Repr

/-- BroadcastThread.run (server.py lines 139-148) over a finite trace of
read observations: a nonempty read is broadcast to every registered
socket; an empty read with the subprocess exited breaks the loop; an
empty read with the subprocess alive loops again; the finally clause
closes the read handle in every case, including a trace that is not yet
terminated. -/
def BroadcastThread.run : List RelayEvent → List Viewer → RelayResult
  | [], vs => { viewers := vs, sawEof := false, stdoutClosed := true }
  | e :: rest, vs =>
    if e.buf ≠ [] then
      BroadcastThread.run rest (managerBroadcast e.buf vs)
    else if e.exited then
      { viewers := vs, sawEof := true, stdoutClosed := true }
    else
      BroadcastThread.run rest vs

/-- Chunk sequence the loop broadcasts for a trace: the nonempty reads, in
read order, preceding the first empty read observed with the subprocess
exited. -/
def broadcastChunks : List RelayEvent → List (List Nat)
  | [] => []
  | e :: rest =>
    if e.buf ≠ [] then e.buf :: broadcastChunks rest
    else if e.exited then []
    else broadcastChunks rest

/-- Whether the loop reaches its break on a trace: some read returns empty
while the subprocess has exited, before the trace runs out. -/
def relayStops : List RelayEvent → Bool
  | [] => false
  | e :: rest =>
    if e.buf ≠ [] then relayStops rest
    else if e.exited then true
    else relayStops rest

/-- Cumulative delivery of a chunk sequence to one socket under the
manager guards: terminated and raising sockets receive nothing, healthy
sockets receive the whole sequence appended in order. -/
def deliverTo (chunks : List (List Nat)) (v : Viewer) : Viewer :=
  if v.terminated then v
  else if v.broken then v
  else { v with received := v.received ++ chunks }

theorem deliverTo_nil (v : Viewer) : deliverTo [] v = v := by
  cases v with
  | mk t b r => cases t <;> cases b <;> simp [deliverTo]

theorem map_deliverTo_nil (vs : List Viewer) : vs.map (deliverTo []) = vs := by
  induction vs with
  | nil => rfl
  | cons v rest ih => simp [deliverTo_nil, ih]

theorem deliverTo_wsSend (c : List Nat) (chunks : List (List Nat)) (v : Viewer) :
    deliverTo chunks (wsSend c v) = deliverTo (c :: chunks) v := by
  cases v with
  | mk t b r => cases t <;> cases b <;> simp [deliverTo, wsSend]

theorem map_deliverTo_broadcast (c : List Nat) (chunks : List (List Nat))
    (vs : List Viewer) :
    (managerBroadcast c vs).map (deliverTo chunks) = vs.map (deliverTo (c :: chunks)) := by
  induction vs with
  | nil => rfl
  | cons v rest ih =>
    simp only [managerBroadcast, List.map_cons] at ih ⊢
    exact List.cons_eq_cons.mpr ⟨deliverTo_wsSend c chunks v, ih⟩

/-- Closed form of the relay loop: it delivers exactly the broadcast chunk
sequence of the trace to every socket under the manager guards, reports
the break exactly when the trace stops it, and always closes the handle. -/
theorem run_spec (trace : List RelayEvent) (vs : List Viewer) :
    BroadcastThread.run trace vs =
      { viewers := vs.map (deliverTo (broadcastChunks trace)),
        sawEof := relayStops trace,
        stdoutClosed := true } := by
  induction trace generalizing vs with
  | nil => simp [BroadcastThread.run, broadcastChunks, relayStops, map_deliverTo_nil]
  | cons e rest ih =>
    by_cases hbuf : e.buf = []
    · cases hex : e.exited with
      | true =>
        simp [BroadcastThread.run, broadcastChunks, relayStops, hbuf, hex, map_deliverTo_nil]
      | false =>
        simp [BroadcastThread.run, broadcastChunks, relayStops, hbuf, hex, ih]
    · simp only [BroadcastThread.run, broadcastChunks, relayStops, hbuf, ne_eq,
        not_false_eq_true, if_true, ite_not, if_neg, ih, map_deliverTo_broadcast]

theorem relayStops_iff (trace : List RelayEvent) :
    relayStops trace = true ↔ ∃ e ∈ trace, e.buf = [] ∧ e.exited = true := by
  induction trace with
  | nil => simp [relayStops]
  | cons e rest ih =>
    by_cases hbuf : e.buf = []
    · cases hex : e.exited with
      | true => simp [relayStops, hbuf, hex]
      | false => simp [relayStops, hbuf, hex, ih]
    · simp [relayStops, hbuf, ih]

theorem broadcastChunks_from_trace (trace : List RelayEvent) :
    ∀ c ∈ broadcastChunks trace, c ≠ [] ∧ ∃ e ∈ trace, e.buf = c := by
  induction trace with
  | nil => intro c hc; simp [broadcastChunks] at hc
  | cons e rest ih =>
    intro c hc
    by_cases hbuf : e.buf = []
    · cases hex : e.exited with
      | true => simp [broadcastChunks, hbuf, hex] at hc
      | false =>
        rw [broadcastChunks, if_neg (by simp [hbuf]), if_neg (by simp [hex])] at hc
        obtain ⟨hne, e2, he2, hb2⟩ := ih c hc
        exact ⟨hne, e2, List.mem_cons_of_mem e he2, hb2⟩
    · rw [broadcastChunks, if_pos hbuf] at hc
      cases hc with
      | head => exact ⟨hbuf, e, List.mem_cons_self e rest, rfl⟩
      | tail _ hc2 =>
        obtain ⟨hne, e2, he2, hb2⟩ := ih c hc2
        exact ⟨hne, e2, List.mem_cons_of_mem e he2, hb2⟩

/-- C1: over any finite trace of bounded reads, the broadcast relay loop
closes its read handle, breaks exactly when some read returned empty with
the subprocess exited, broadcasts exactly the nonempty chunks — each of
at most 32768 bytes, unmodified, in read order — and every viewer that is
registered, not terminated and not broken receives exactly that chunk
sequence appended to its delivery in the same relative order. -/
theorem relay_order_preservation (trace : List RelayEvent) (vs : List Viewer)
    (hb : ∀ e ∈ trace, e.buf.length ≤ 32768) :
    (BroadcastThread.run trace vs).stdoutClosed = true ∧
    ((BroadcastThread.run trace vs).sawEof = true ↔
      ∃ e ∈ trace, e.buf = [] ∧ e.exited = true) ∧
    (∀ c ∈ broadcastChunks trace, c ≠ [] ∧ c.length ≤ 32768) ∧
    (BroadcastThread.run trace vs).viewers = vs.map (deliverTo (broadcastChunks trace)) ∧
    (∀ v ∈ vs, v.terminated = false → v.broken = false →
      (deliverTo (broadcastChunks trace) v).received =
        v.received ++ broadcastChunks trace) := by
  refine ⟨by rw [run_spec], by rw [run_spec]; exact relayStops_iff trace, ?_,
    by rw [run_spec], ?_⟩
  · intro c hc
    obtain ⟨hne, e, he, hbe⟩ := broadcastChunks_from_trace trace c hc
    exact ⟨hne, hbe ▸ hb e he⟩
  · intro v _ ht hbk
    simp [deliverTo, ht, hbk]

/-- Witness for C1 on a concrete trace of two nonempty reads, an
interleaved empty read with the subprocess alive, and a terminating empty
read, delivered to one healthy viewer. -/
theorem relay_order_preservation_witness :
    (BroadcastThread.run
        [RelayEvent.mk [1, 2] false, RelayEvent.mk [] false, RelayEvent.mk [3] true,
          RelayEvent.mk [] true, RelayEvent.mk [7] false]
        [Viewer.mk false false []]).viewers =
      [Viewer.mk false false [[1, 2], [3]]] :=
  ((relay_order_preservation
      [RelayEvent.mk [1, 2] false, RelayEvent.mk [] false, RelayEvent.mk [3] true,
        RelayEvent.mk [] true, RelayEvent.mk [7] false]
      [Viewer.mk false false []] (by decide)).2.2.2.1).trans (by decide)

/-- C6: a viewer whose socket raises on write is silently passed over —
the relay loop still consumes its whole trace, its break behavior and its
handle closing are exactly as without that viewer, the broken viewer is
left unchanged, and every other viewer still has the full chunk sequence
delivered exactly as if the broken viewer were absent. -/
theorem broken_viewer_isolation (trace : List RelayEvent) (vs1 vs2 : List Viewer)
    (b : Viewer) (hbk : b.broken = true) :
    (BroadcastThread.run trace (vs1 ++ b :: vs2)).sawEof =
      (BroadcastThread.run trace (vs1 ++ vs2)).sawEof ∧
    (BroadcastThread.run trace (vs1 ++ b :: vs2)).stdoutClosed = true ∧
    (BroadcastThread.run trace (vs1 ++ b :: vs2)).viewers =
      vs1.map (deliverTo (broadcastChunks trace)) ++
        b :: vs2.map (deliverTo (broadcastChunks trace)) ∧
    (BroadcastThread.run trace (vs1 ++ vs2)).viewers =
      vs1.map (deliverTo (broadcastChunks trace)) ++
        vs2.map (deliverTo (broadcastChunks trace)) := by
  have hb : deliverTo (broadcastChunks trace) b = b := by
    cases ht : b.terminated <;> simp [deliverTo, hbk, ht]
  refine ⟨?_, ?_, ?_, ?_⟩ <;> simp [run_spec, hb]

/-- Witness for C6: one broken viewer between two healthy ones; the
healthy ones receive both chunks, the broken one receives nothing. -/
theorem broken_viewer_isolation_witness :
    (BroadcastThread.run [RelayEvent.mk [5] false, RelayEvent.mk [6] false, RelayEvent.mk [] true]
        ([Viewer.mk false false []] ++ Viewer.mk false true [] :: [Viewer.mk false false []])).viewers =
      [Viewer.mk false false [[5], [6]], Viewer.mk false true [],
        Viewer.mk false false [[5], [6]]] :=
  ((broken_viewer_isolation
      [RelayEvent.mk [5] false, RelayEvent.mk [6] false, RelayEvent.mk [] true]
      [Viewer.mk false false []] [Viewer.mk false false []]
      (Viewer.mk false true []) rfl).2.2.1).trans (by decide)

end IoTABridge
